import Mathlib

/-!
Verification of the pr-review CI scripts against their specification.

The four Python scripts (`check_pr.py`, `llm_check.py`, `code_review.py`,
`report_check.py`) are shallowly embedded below.  External collaborators
(the regex engine, the LLM completion endpoint, the hosting platform's
HTTP API) are modelled as explicit parameters: a matcher function, an
oracle giving the outcome of each completion attempt, and an HTTP
response value.  Everything the scripts themselves compute (branching,
aggregation, retry loops, exit codes, message construction) is
translated directly from the source.
-/

namespace PrReview

/-- Python truthiness of an optional environment-variable string:
`None` and the empty string are falsy (`if not api_key`, `all([...])`). -/
def envTruthy : Option String → Bool
  | none => false
  | some s => !s.isEmpty

/-- Substring containment: `sub` occurs contiguously inside `s`.
Models Python f-string interpolation results: the message contains the
interpolated value. -/
def strContains (s sub : String) : Prop := sub.data <:+: s.data

instance (s sub : String) : Decidable (strContains s sub) := by
  unfold strContains
  exact List.decidableInfix sub.data s.data

/-! ## check_pr.py — format validator -/

/-- Default value of the `PR_TITLE_REGEX` environment variable
(`check_pr.py`, `check_pr_title`). -/
def defaultTitleRegex : String := "^\\[(Feature|Fix|Docs|Refactor|Test|Chore)\\] .+"

/-- Fixed part of the failure message before the interpolated title. -/
def titleFailPre : String := "## PR 标题格式错误\n\n您的 PR 标题 `"

/-- Fixed part of the failure message between the title and the pattern. -/
def titleFailMid : String := "` 不符合要求的格式：\n```\n"

/-- Fixed part of the failure message after the interpolated pattern. -/
def titleFailSuf : String := "\n```\n\n### 正确的标题示例：\n- [Feature] 添加用户认证功能\n- [Fix] 修复数据处理器中的内存泄漏\n- [Docs] 更新 API 文档\n- [Refactor] 重构用户管理模块\n- [Test] 添加集成测试\n- [Chore] 更新依赖版本\n\n### 如何修复\n1. 点击 PR 标题旁边的编辑按钮（✏️）\n2. 修改标题以符合上述格式\n3. 点击保存"

/-- `check_pr_title` from `check_pr.py`.  The regex engine (`re.match`)
is an external collaborator, passed in as `reMatch pattern title`;
`envRegex` is the optional `PR_TITLE_REGEX` environment variable,
defaulted to `defaultTitleRegex` exactly as `os.environ.get` does.
Returns `(valid, message)`. -/
def check_pr_title (reMatch : String → String → Bool) (envRegex : Option String)
    (title : String) : Bool × String :=
  let pat := envRegex.getD defaultTitleRegex
  if reMatch pat title then
    (true, "PR 标题 `" ++ title ++ "` 格式正确")
  else
    (false, titleFailPre ++ title ++ titleFailMid ++ pat ++ titleFailSuf)

/-- Failure message of the body check (body empty or too short). -/
def bodyFailMsg : String := "## PR 描述错误\n\nPR 描述太短或为空。请提供以下信息：\n\n### 必需的章节\n```markdown\n## 变更内容\n描述这个 PR 做了什么改动\n\n## 原因\n解释为什么需要这些改动\n\n## 测试\n说明如何测试这些改动\n\n## 相关问题\n列出相关的 issue 或文档\n```\n\n### 如何修复\n1. 点击 PR 描述旁边的编辑按钮\n2. 添加上述必需的章节\n3. 为每个章节提供详细信息\n4. 点击保存\n\n好的 PR 描述可以帮助审查者更好地理解您的改动，加快审查过程。"

/-- Warning message emitted when the body has no heading-like line. -/
def bodyWarnMsg : String := "## ⚠️ PR 描述格式建议\n\n您的 PR 描述缺少结构化的章节。建议使用 Markdown 标题来组织描述：\n\n```markdown\n## 变更内容\n描述这个 PR 做了什么改动\n\n## 原因\n解释为什么需要这些改动\n\n## 测试\n说明如何测试这些改动\n\n## 相关问题\n列出相关的 issue 或文档\n```\n\n这种结构可以让审查者更容易理解您的改动。"

/-- The whitespace set of CPython's `str.strip()` / `str.isspace()`:
the 29 code points with bidirectional class WS, B or S or general
category Zs (U+0009–U+000D, U+001C–U+001F, U+0020, U+0085, U+00A0,
U+1680, U+2000–U+200A, U+2028, U+2029, U+202F, U+205F, U+3000). -/
def pyIsSpace (c : Char) : Bool :=
  let n := c.toNat
  (0x09 ≤ n && n ≤ 0x0D) || (0x1C ≤ n && n ≤ 0x1F) ||
  n == 0x20 || n == 0x85 || n == 0xA0 || n == 0x1680 ||
  (0x2000 ≤ n && n ≤ 0x200A) ||
  n == 0x2028 || n == 0x2029 || n == 0x202F || n == 0x205F || n == 0x3000

/-- Python `str.strip()`: the character sequence with leading and
trailing whitespace (in the sense of `pyIsSpace`) removed. -/
def pyStrip (s : String) : List Char :=
  ((s.data.dropWhile pyIsSpace).reverse.dropWhile pyIsSpace).reverse

/-- `check_pr_body` from `check_pr.py`.  `not body or
len(body.strip()) < 50` rejects; otherwise the result is valid, with a
warning appended to the message when no heading-like fragment occurs.
The heading search `re.search(r'#+\s+\w+', body) is not None` is the
external regex engine with its Unicode-aware `\s` and `\w` classes,
abstracted — like `re.match` in `check_pr_title` — as the collaborator
`reSearch`.  Returns `(valid, message)`. -/
def check_pr_body (reSearch : String → Bool) (body : String) : Bool × String :=
  if body = "" ∨ (pyStrip body).length < 50 then
    (false, bodyFailMsg)
  else if reSearch body then
    (true, "PR 描述充分")
  else
    (true, "PR 描述充分" ++ "\n\n" ++ bodyWarnMsg)

/-- `main` of `check_pr.py`, reduced to its decision: the conclusion
string sent to the report script and the process exit code.  Returns
`(exitCode, conclusion)`. -/
def check_pr_main (reMatch : String → String → Bool) (reSearch : String → Bool)
    (envRegex : Option String) (title body : String) : Nat × String :=
  let t := check_pr_title reMatch envRegex title
  let b := check_pr_body reSearch body
  if t.1 && b.1 then (0, "success") else (1, "failure")

/-! ## llm_check.py — LLM quality evaluator -/

/-- The structured verdict parsed from the completion endpoint's JSON
response (`llm_check.py`). -/
structure QualityResult where
  quality_score : Int
  is_acceptable : Bool
  strengths : List String
  improvement_suggestions : List String
  explanation : String
deriving DecidableEq

/-- Outcome of one call to the completion endpoint, as seen by the
retry loops: a transport/provider error, a response whose content fails
to parse as JSON, or a parsed result. -/
inductive Attempt (α : Type)
  | err
  | badJson
  | ok (a : α)

/-- Trace of a retry loop: the parsed result if any attempt succeeded,
how many attempts were made, and the sequence of pauses (in seconds)
slept between attempts. -/
structure RetryTrace (α : Type) where
  result : Option α
  attempts : Nat
  sleeps : List Nat
deriving DecidableEq

/-- The `while retry_count < max_retries` loop of
`evaluate_pr_with_llm` (`llm_check.py`): `left` is the number of
attempts still allowed, `idx` the index of the next attempt.  Both a
provider error and an unparseable response increment the counter and
sleep 2 seconds before the next iteration. -/
def evalGo {α : Type} (oracle : Nat → Attempt α) (idx : Nat) : Nat → RetryTrace α
  | 0 => ⟨none, 0, []⟩
  | left + 1 =>
    match oracle idx with
    | .ok r => ⟨some r, 1, []⟩
    | .err =>
      let t := evalGo oracle (idx + 1) left
      ⟨t.result, t.attempts + 1, 2 :: t.sleeps⟩
    | .badJson =>
      let t := evalGo oracle (idx + 1) left
      ⟨t.result, t.attempts + 1, 2 :: t.sleeps⟩

/-- Retry trace of `evaluate_pr_with_llm`: `max_retries = 3`. -/
def evaluateTrace (oracle : Nat → Attempt QualityResult) : RetryTrace QualityResult :=
  evalGo oracle 0 3

/-- Result of `evaluate_pr_with_llm`: missing/empty `OPENAI_API_KEY`
exits immediately (`configError`), an exhausted retry loop exits after
printing (`providerError`), otherwise the parsed verdict is returned. -/
inductive EvalOutcome
  | configError
  | providerError (t : RetryTrace QualityResult)
  | ok (r : QualityResult) (t : RetryTrace QualityResult)

/-- `evaluate_pr_with_llm` from `llm_check.py`, with the completion
endpoint abstracted as `oracle`. -/
def evaluate_pr_with_llm (apiKey : Option String) (oracle : Nat → Attempt QualityResult) :
    EvalOutcome :=
  if envTruthy apiKey = false then .configError
  else
    let t := evaluateTrace oracle
    match t.result with
    | some r => .ok r t
    | none => .providerError t

/-- Number of completion attempts made before the script's outcome. -/
def evalAttempts : EvalOutcome → Nat
  | .configError => 0
  | .providerError t => t.attempts
  | .ok _ t => t.attempts

/-- Exit code of `main` in `llm_check.py`: 1 for a missing credential
(`sys.exit(1)` inside `evaluate_pr_with_llm`), 1 when retries are
exhausted, otherwise 0 exactly when the model-reported
`is_acceptable` field is true. -/
def llm_check_exit (apiKey : Option String) (oracle : Nat → Attempt QualityResult) : Nat :=
  match evaluate_pr_with_llm apiKey oracle with
  | .configError => 1
  | .providerError _ => 1
  | .ok r _ => if r.is_acceptable then 0 else 1

/-! ## code_review.py — LLM code reviewer -/

/-- One issue reported for a file by the review prompt. -/
structure Issue where
  itype : String
  severity : String
  description : String
  suggestion : String
  lineNumber : Option String
deriving DecidableEq

/-- The structured review of one file parsed from the completion
endpoint's JSON response (`code_review.py`). -/
structure ReviewResult where
  score : Int
  issues : List Issue
  summary : String
  positive_aspects : List String
deriving DecidableEq

/-- `retry_delays = [1, 2, 4]` in `review_code_with_llm`. -/
def retryDelays : List Nat := [1, 2, 4]

/-- The `for retry_count, delay in enumerate(retry_delays)` loop of
`review_code_with_llm` (`code_review.py`): any exception (transport
error or unparseable JSON alike) on the last scheduled attempt returns
`None` without sleeping; on an earlier attempt it sleeps the scheduled
delay and retries. -/
def reviewGo (oracle : Nat → Attempt ReviewResult) (idx : Nat) :
    List Nat → RetryTrace ReviewResult
  | [] => ⟨none, 0, []⟩
  | [_] =>
    match oracle idx with
    | .ok r => ⟨some r, 1, []⟩
    | .err => ⟨none, 1, []⟩
    | .badJson => ⟨none, 1, []⟩
  | d :: d2 :: rest =>
    match oracle idx with
    | .ok r => ⟨some r, 1, []⟩
    | .err =>
      let t := reviewGo oracle (idx + 1) (d2 :: rest)
      ⟨t.result, t.attempts + 1, d :: t.sleeps⟩
    | .badJson =>
      let t := reviewGo oracle (idx + 1) (d2 :: rest)
      ⟨t.result, t.attempts + 1, d :: t.sleeps⟩

/-- Retry trace of `review_code_with_llm` over the `[1, 2, 4]` delay
schedule. -/
def reviewTrace (oracle : Nat → Attempt ReviewResult) : RetryTrace ReviewResult :=
  reviewGo oracle 0 retryDelays

/-- One entry of the changed-file list returned by the hosting API
(the fields `main` of `code_review.py` reads). -/
structure ChangedFile where
  filename : String
  status : String
  binary : Bool
  raw_url : String
deriving DecidableEq

/-- The counters accumulated by the review loop in `main` of
`code_review.py`. -/
structure ReviewAgg where
  reviewedFiles : Nat
  totalIssues : Nat
  highSeverityIssues : Nat
  lowQualityFiles : Nat
deriving DecidableEq

/-- Initial counters of the review loop. -/
def reviewAggInit : ReviewAgg := ⟨0, 0, 0, 0⟩

/-- The body of `for file in changed_files[:max_files]` in `main` of
`code_review.py`.  Removed/binary files are skipped; a failed raw
content fetch (non-200 or exception, modelled as `fetch file = none`)
skips the file; otherwise `reviewed_files` is incremented and, when the
LLM review succeeded, the issue counters and the low-quality counter
are updated. -/
def processFile (fetch : ChangedFile → Option String)
    (llm : ChangedFile → String → Option ReviewResult) (threshold : Int)
    (agg : ReviewAgg) (file : ChangedFile) : ReviewAgg :=
  if file.status = "removed" ∨ file.binary = true then agg
  else
    match fetch file with
    | none => agg
    | some content =>
      let agg := { agg with reviewedFiles := agg.reviewedFiles + 1 }
      match llm file content with
      | none => agg
      | some r =>
        { agg with
          totalIssues := agg.totalIssues + r.issues.length
          highSeverityIssues :=
            agg.highSeverityIssues + (r.issues.filter (fun i => i.severity == "high")).length
          lowQualityFiles :=
            agg.lowQualityFiles + (if r.score < threshold then 1 else 0) }

/-- `changed_files[:max_files]`: the slice of the changed-file list the
reviewer considers. -/
def consideredFiles (files : List ChangedFile) (maxFiles : Nat) : List ChangedFile :=
  files.take maxFiles

/-- The whole review loop of `main` in `code_review.py`. -/
def reviewFiles (fetch : ChangedFile → Option String)
    (llm : ChangedFile → String → Option ReviewResult) (threshold : Int)
    (maxFiles : Nat) (files : List ChangedFile) : ReviewAgg :=
  (consideredFiles files maxFiles).foldl (processFile fetch llm threshold) reviewAggInit

/-- The conclusion computed by `main` of `code_review.py` after the
loop: `neutral` when no file was reviewed, else `failure` when
`high_severity_issues > 0 or low_quality_files > 0`, else `success`. -/
def reviewConclusion (agg : ReviewAgg) : String :=
  if agg.reviewedFiles = 0 then "neutral"
  else if 0 < agg.highSeverityIssues ∨ 0 < agg.lowQualityFiles then "failure"
  else "success"

/-- The exit code of `main` in `code_review.py`: 1 exactly when
`high_severity_issues > 0`. -/
def reviewExit (agg : ReviewAgg) : Nat :=
  if 0 < agg.highSeverityIssues then 1 else 0

/-! ## report_check.py — report submitter -/

/-- The environment variables `create_check_run` reads. -/
structure ReportEnv where
  token : Option String
  repo : Option String
  sha : Option String
  checkName : Option String
deriving DecidableEq

/-- `all([token, repo, sha])`: every required variable present and
non-empty. -/
def reportEnvOk (env : ReportEnv) : Bool :=
  envTruthy env.token && envTruthy env.repo && envTruthy env.sha

/-- Outcome of the POST to the check-run endpoint: a status code, or a
raised transport exception. -/
inductive HttpResult
  | status (code : Nat)
  | exc
deriving DecidableEq

/-- `create_check_run` from `report_check.py`: missing environment
variables return `False` before any request; a 201 response returns
`True`; any other status or exception returns `False` (nothing is
raised to the caller). -/
def create_check_run (env : ReportEnv) (resp : HttpResult) : Bool :=
  if reportEnvOk env = false then false
  else
    match resp with
    | .status code => if code = 201 then true else false
    | .exc => false

/-- Exit code of `main` in `report_check.py`:
`sys.exit(0 if success or conclusion == 'success' else 1)`. -/
def report_main (env : ReportEnv) (resp : HttpResult) (conclusion : String) : Nat :=
  if create_check_run env resp = true ∨ conclusion = "success" then 0 else 1

/-! ## Sample inputs used by witness and counterexample theorems -/

/-- A matcher that rejects every title (a title not matching the
pattern). -/
def neverMatch : String → String → Bool := fun _ _ => false

/-- A 60-character body with no heading-like fragment. -/
def sampleBody : String := String.mk (List.replicate 60 'a')

/-- A regex-search collaborator that finds no heading in any body. -/
def noHeadingSearch : String → Bool := fun _ => false

/-- An accepted verdict as the model reports it for a quality score of
6 (`is_acceptable = (score >= 6)`). -/
def acceptedResult : QualityResult :=
  ⟨6, true, ["clear description"], [], "well documented"⟩

/-- A rejected verdict as the model reports it for a quality score of
3 (`is_acceptable = (score >= 6)`). -/
def rejectedResult : QualityResult :=
  ⟨3, false, [], ["add tests"], "too terse"⟩

/-- A reviewable changed file (not removed, not binary). -/
def sampleFile : ChangedFile :=
  ⟨"app/main.py", "modified", false, "https://raw.example.test/app/main.py"⟩

/-- A fetch collaborator that always returns content. -/
def sampleFetch : ChangedFile → Option String := fun _ => some "print(1)"

/-- A review with no issues but a score of 3, below the default
threshold of 6: the file counts as low quality only. -/
def sampleLowReview : ReviewResult := ⟨3, [], "可读性不足", []⟩

/-- A review collaborator that always returns `sampleLowReview`. -/
def sampleLlm : ChangedFile → String → Option ReviewResult := fun _ _ => some sampleLowReview

/-- A changed-file list with 15 entries. -/
def files15 : List ChangedFile := List.replicate 15 sampleFile

/-- A complete report environment. -/
def envReady : ReportEnv :=
  ⟨some "ghp-token", some "octo/repo", some "abc1234", some "PR check"⟩

/-- A report environment whose `GITHUB_TOKEN` is missing. -/
def envNoToken : ReportEnv := ⟨none, some "octo/repo", some "abc1234", none⟩

/-! ## Helper lemmas -/

theorem string_data_append (a b : String) : (a ++ b).data = a.data ++ b.data := rfl

theorem strContains_of_eq (msg x : String) (l r : List Char)
    (h : msg.data = l ++ (x.data ++ r)) : strContains msg x := by
  refine ⟨l, r, ?_⟩
  rw [List.append_assoc, h]

/-! ## Claim theorems -/

/-- C2: for every title and body, the format validator accepts the PR
(conclusion "success") if and only if both the title hard-check and the
body hard-check pass, and the exit code is 0 on accept and 1 on
reject. -/
theorem C2_accept_iff_both_checks (reMatch : String → String → Bool)
    (reSearch : String → Bool) (envRegex : Option String) (title body : String) :
    ((check_pr_main reMatch reSearch envRegex title body).2 = "success"
       ↔ (check_pr_title reMatch envRegex title).1 = true
         ∧ (check_pr_body reSearch body).1 = true)
    ∧ ((check_pr_main reMatch reSearch envRegex title body).1 = 0
       ↔ (check_pr_main reMatch reSearch envRegex title body).2 = "success")
    ∧ ((check_pr_main reMatch reSearch envRegex title body).1 = 1
       ↔ ¬ (check_pr_main reMatch reSearch envRegex title body).2 = "success") := by
  unfold check_pr_main
  cases ht : (check_pr_title reMatch envRegex title).1 <;>
    cases hb : (check_pr_body reSearch body).1 <;>
      simp [ht, hb]

/-- C3: for every configured pattern (default `defaultTitleRegex`,
overridden by the `PR_TITLE_REGEX` environment variable) and every
title, the title check returns valid exactly when the title matches the
pattern, and on a non-matching title the message contains both the
offending title and the pattern. -/
theorem C3_title_check (reMatch : String → String → Bool) (envRegex : Option String)
    (title : String) :
    ((check_pr_title reMatch envRegex title).1
        = reMatch (envRegex.getD defaultTitleRegex) title)
    ∧ (reMatch (envRegex.getD defaultTitleRegex) title = false →
        strContains (check_pr_title reMatch envRegex title).2 title
        ∧ strContains (check_pr_title reMatch envRegex title).2
            (envRegex.getD defaultTitleRegex)) := by
  constructor
  · unfold check_pr_title
    cases h : reMatch (envRegex.getD defaultTitleRegex) title <;> simp [h]
  · intro h
    unfold check_pr_title
    simp only [h, Bool.false_eq_true, if_false]
    constructor
    · exact strContains_of_eq _ _ titleFailPre.data
        (titleFailMid ++ (envRegex.getD defaultTitleRegex) ++ titleFailSuf).data
        (by simp only [string_data_append, List.append_assoc])
    · exact strContains_of_eq _ _ (titleFailPre ++ title ++ titleFailMid).data
        titleFailSuf.data
        (by simp only [string_data_append, List.append_assoc])

/-- Witness for C3 at a concrete non-matching title. -/
theorem C3_title_check_witness :
    strContains (check_pr_title neverMatch none "update stuff").2 "update stuff"
    ∧ strContains (check_pr_title neverMatch none "update stuff").2
        ((none : Option String).getD defaultTitleRegex) :=
  (C3_title_check neverMatch none "update stuff").2 rfl

/-- C4: for every body and every heading-search collaborator, the body
check is invalid exactly when the trimmed length is below 50
(regardless of structure), and a body of trimmed length at least 50 in
which the regex engine finds no heading-like fragment is valid with
the warning text included in the message — the warning never flips the
outcome. -/
theorem C4_body_check (reSearch : String → Bool) (body : String) :
    ((check_pr_body reSearch body).1 = true ↔ 50 ≤ (pyStrip body).length)
    ∧ ((pyStrip body).length < 50 → (check_pr_body reSearch body).1 = false)
    ∧ (50 ≤ (pyStrip body).length → reSearch body = false →
        (check_pr_body reSearch body).1 = true
        ∧ strContains (check_pr_body reSearch body).2 bodyWarnMsg) := by
  refine ⟨?_, ?_, ?_⟩
  · unfold check_pr_body
    by_cases hb : body = ""
    · subst hb
      simp [pyStrip]
    · by_cases hl : (pyStrip body).length < 50
      · simp [hb, hl, Nat.not_le_of_lt hl]
      · by_cases hh : reSearch body <;> simp [hb, hl, hh, Nat.le_of_not_lt hl]
  · intro hl
    unfold check_pr_body
    simp [hl]
  · intro hl hh
    have hb : ¬ (body = "" ∨ (pyStrip body).length < 50) := by
      rintro (rfl | h)
      · simp [pyStrip] at hl
      · omega
    unfold check_pr_body
    rw [if_neg hb, if_neg (by simp [hh])]
    refine ⟨rfl, ?_⟩
    exact strContains_of_eq _ _ ("PR 描述充分" ++ "\n\n").data []
      (by simp only [string_data_append, List.append_assoc, List.append_nil])

/-- Witness for C4 at a concrete long body in which the engine finds
no heading. -/
theorem C4_body_check_witness :
    (check_pr_body noHeadingSearch sampleBody).1 = true
    ∧ strContains (check_pr_body noHeadingSearch sampleBody).2 bodyWarnMsg :=
  (C4_body_check noHeadingSearch sampleBody).2.2 (by decide) rfl

/-- C5: the quality evaluator exits 0 on the parsed response with
`quality_score = 6, is_acceptable = true`, exits 1 on the response with
`quality_score = 3` (reported `is_acceptable = false`, the model's own
rule `score >= 6`), and in general the exit code is taken from the
model-reported `is_acceptable` field alone. -/
theorem C5_quality_verdict :
    llm_check_exit (some "sk-test") (fun _ => Attempt.ok acceptedResult) = 0
    ∧ llm_check_exit (some "sk-test") (fun _ => Attempt.ok rejectedResult) = 1
    ∧ (∀ r : QualityResult,
        llm_check_exit (some "sk-test") (fun _ => Attempt.ok r)
          = if r.is_acceptable then 0 else 1) := by
  refine ⟨rfl, rfl, fun r => rfl⟩

/-- Attempt bound and fixed 2-second pauses of the evaluator's retry
loop, for any remaining-attempt budget. -/
theorem evalGo_bounds {α : Type} (oracle : Nat → Attempt α) :
    ∀ (left idx : Nat), (evalGo oracle idx left).attempts ≤ left
      ∧ (evalGo oracle idx left).sleeps.all (fun d => d == 2) = true
  | 0, _ => by simp [evalGo]
  | left + 1, idx => by
    obtain ⟨ih1, ih2⟩ := evalGo_bounds oracle left (idx + 1)
    unfold evalGo
    cases oracle idx with
    | ok r => simp
    | err =>
      refine ⟨?_, ?_⟩
      · simpa using Nat.succ_le_succ ih1
      · simpa using ih2
    | badJson =>
      refine ⟨?_, ?_⟩
      · simpa using Nat.succ_le_succ ih1
      · simpa using ih2

/-- Attempt bound and pause schedule of the reviewer's retry loop. -/
theorem reviewTrace_bounds (oracle : Nat → Attempt ReviewResult) :
    (reviewTrace oracle).attempts ≤ 3 ∧ (reviewTrace oracle).sleeps <+: [1, 2] := by
  cases h0 : oracle 0 <;> cases h1 : oracle 1 <;> cases h2 : oracle 2 <;>
    simp [reviewTrace, retryDelays, reviewGo, h0, h1, h2]

/-- C6 counterexample: with a completion endpoint that always fails,
the per-file code reviewer pauses 1 second and then 2 seconds — not a
fixed 2-second pause between attempts. -/
theorem C6_counterexample :
    (reviewTrace (fun _ => Attempt.err)).sleeps = [1, 2]
    ∧ (reviewTrace (fun _ => Attempt.err)).sleeps.all (fun d => d == 2) = false := by
  decide

/-- C6 amended: both loops make at most 3 attempts and retry on
transport errors and on unparseable responses; the evaluator pauses a
fixed 2 seconds after every failed attempt, while the code reviewer's
pauses follow the `[1, 2, 4]` schedule, of which 1 s and 2 s can occur
(there is no pause after the final attempt). -/
theorem C6_retry_policy_amended :
    (∀ oracle : Nat → Attempt QualityResult,
        (evaluateTrace oracle).attempts ≤ 3
        ∧ (evaluateTrace oracle).sleeps.all (fun d => d == 2) = true)
    ∧ (∀ oracle : Nat → Attempt ReviewResult,
        (reviewTrace oracle).attempts ≤ 3 ∧ (reviewTrace oracle).sleeps <+: [1, 2])
    ∧ (∀ r : QualityResult,
        (evaluateTrace (fun n => if n = 0 then Attempt.err else Attempt.ok r)).result = some r
        ∧ (evaluateTrace (fun n => if n = 0 then Attempt.badJson else Attempt.ok r)).result
            = some r)
    ∧ (∀ r : ReviewResult,
        (reviewTrace (fun n => if n = 0 then Attempt.err else Attempt.ok r)).result = some r
        ∧ (reviewTrace (fun n => if n = 0 then Attempt.badJson else Attempt.ok r)).result
            = some r)
    ∧ (evaluateTrace (fun _ => Attempt.err)).sleeps = [2, 2, 2]
    ∧ (reviewTrace (fun _ => Attempt.err)).sleeps = [1, 2] := by
  refine ⟨fun oracle => evalGo_bounds oracle 3 0, reviewTrace_bounds, ?_, ?_, by decide, by decide⟩
  · intro r
    exact ⟨rfl, rfl⟩
  · intro r
    exact ⟨rfl, rfl⟩

/-- C7: with the submitter's environment complete, a 201 response from
the check-run endpoint yields success and exit code 0; any other status
or a transport exception yields failure (returned, not raised) and the
standalone process exits 1 unless the conclusion argument is
"success". -/
theorem C7_report_submitter (env : ReportEnv) (resp : HttpResult) (conclusion : String)
    (henv : reportEnvOk env = true) :
    (resp = HttpResult.status 201 →
       create_check_run env resp = true ∧ report_main env resp conclusion = 0)
    ∧ (resp ≠ HttpResult.status 201 →
       create_check_run env resp = false
       ∧ report_main env resp conclusion = (if conclusion = "success" then 0 else 1)) := by
  constructor
  · rintro rfl
    have hc : create_check_run env (HttpResult.status 201) = true := by
      unfold create_check_run
      simp [henv]
    refine ⟨hc, ?_⟩
    unfold report_main
    simp [hc]
  · intro hne
    have hc : create_check_run env resp = false := by
      unfold create_check_run
      cases resp with
      | status code =>
        have : code ≠ 201 := by
          intro h
          exact hne (by rw [h])
        simp [henv, this]
      | exc => simp [henv]
    refine ⟨hc, ?_⟩
    unfold report_main
    by_cases hs : conclusion = "success" <;> simp [hc, hs]

/-- Witness for C7 at a complete environment and a 404 response. -/
theorem C7_report_submitter_witness :
    create_check_run envReady (HttpResult.status 404) = false
    ∧ report_main envReady (HttpResult.status 404) "failure"
        = (if ("failure" : String) = "success" then 0 else 1) :=
  (C7_report_submitter envReady (HttpResult.status 404) "failure" (by decide)).2 (by decide)

/-- C8 counterexample: the report submitter invoked with
`GITHUB_TOKEN` missing and conclusion "success" exits 0, not
non-zero. -/
theorem C8_counterexample :
    envNoToken.token = none ∧ report_main envNoToken HttpResult.exc "success" = 0 := by
  decide

/-- C8 amended: a missing or empty `OPENAI_API_KEY` makes the quality
evaluator exit 1 immediately, with zero completion attempts and no
retry; the report submitter with a required environment variable
missing reports the submission failed without attempting it, but its
process exits 1 only when the conclusion argument is not "success" —
with conclusion "success" it exits 0. -/
theorem C8_config_error_amended (apiKey : Option String)
    (oracle : Nat → Attempt QualityResult)
    (env : ReportEnv) (resp : HttpResult) (conclusion : String) :
    (envTruthy apiKey = false →
       evaluate_pr_with_llm apiKey oracle = EvalOutcome.configError
       ∧ evalAttempts (evaluate_pr_with_llm apiKey oracle) = 0
       ∧ llm_check_exit apiKey oracle = 1)
    ∧ (reportEnvOk env = false →
       create_check_run env resp = false
       ∧ report_main env resp conclusion = (if conclusion = "success" then 0 else 1)) := by
  constructor
  · intro hk
    have he : evaluate_pr_with_llm apiKey oracle = EvalOutcome.configError := by
      unfold evaluate_pr_with_llm
      simp [hk]
    refine ⟨he, ?_, ?_⟩
    · rw [he]
      rfl
    · unfold llm_check_exit
      rw [he]
  · intro henv
    have hc : create_check_run env resp = false := by
      unfold create_check_run
      simp [henv]
    refine ⟨hc, ?_⟩
    unfold report_main
    by_cases hs : conclusion = "success" <;> simp [hc, hs]

/-- Witness for C8 (amended) at a missing API key and a missing
token. -/
theorem C8_config_error_witness :
    (evaluate_pr_with_llm none (fun _ => Attempt.err) = EvalOutcome.configError
     ∧ evalAttempts (evaluate_pr_with_llm none (fun _ => Attempt.err)) = 0
     ∧ llm_check_exit none (fun _ => Attempt.err) = 1)
    ∧ (create_check_run envNoToken HttpResult.exc = false
     ∧ report_main envNoToken HttpResult.exc "failure"
         = (if ("failure" : String) = "success" then 0 else 1)) :=
  ⟨(C8_config_error_amended none (fun _ => Attempt.err) envNoToken HttpResult.exc "failure").1
      rfl,
   (C8_config_error_amended none (fun _ => Attempt.err) envNoToken HttpResult.exc "failure").2
      (by decide)⟩

/-- The review loop's counters never show a high-severity issue or a
low-quality file without a reviewed file: both counters are only
incremented in the branch that also increments `reviewed_files`. -/
theorem processFile_inv (fetch : ChangedFile → Option String)
    (llm : ChangedFile → String → Option ReviewResult) (threshold : Int)
    (agg : ReviewAgg) (f : ChangedFile)
    (h : agg.reviewedFiles = 0 → agg.highSeverityIssues = 0 ∧ agg.lowQualityFiles = 0) :
    (processFile fetch llm threshold agg f).reviewedFiles = 0 →
      (processFile fetch llm threshold agg f).highSeverityIssues = 0
      ∧ (processFile fetch llm threshold agg f).lowQualityFiles = 0 := by
  unfold processFile
  split
  · exact h
  · split
    · exact h
    · split
      · intro hr
        simp at hr
      · intro hr
        simp at hr

/-- The invariant of `processFile_inv`, carried through the fold. -/
theorem foldl_inv (fetch : ChangedFile → Option String)
    (llm : ChangedFile → String → Option ReviewResult) (threshold : Int) :
    ∀ (files : List ChangedFile) (agg : ReviewAgg),
      (agg.reviewedFiles = 0 → agg.highSeverityIssues = 0 ∧ agg.lowQualityFiles = 0) →
      ((files.foldl (processFile fetch llm threshold) agg).reviewedFiles = 0 →
        (files.foldl (processFile fetch llm threshold) agg).highSeverityIssues = 0
        ∧ (files.foldl (processFile fetch llm threshold) agg).lowQualityFiles = 0)
  | [], _, h => by simpa using h
  | f :: fs, agg, h => by
    simpa using
      foldl_inv fetch llm threshold fs (processFile fetch llm threshold agg f)
        (processFile_inv fetch llm threshold agg f h)

/-- If the review loop reviewed no file, it counted no high-severity
issues and no low-quality files. -/
theorem reviewFiles_inv (fetch : ChangedFile → Option String)
    (llm : ChangedFile → String → Option ReviewResult) (threshold : Int)
    (maxFiles : Nat) (files : List ChangedFile) :
    (reviewFiles fetch llm threshold maxFiles files).reviewedFiles = 0 →
      (reviewFiles fetch llm threshold maxFiles files).highSeverityIssues = 0
      ∧ (reviewFiles fetch llm threshold maxFiles files).lowQualityFiles = 0 := by
  unfold reviewFiles
  exact foldl_inv fetch llm threshold (consideredFiles files maxFiles) reviewAggInit
    (fun _ => ⟨rfl, rfl⟩)

/-- C1: for every review run, the aggregate conclusion is three-way:
"failure" exactly when `highSeverityIssues > 0` or
`lowQualityFiles > 0`; "success" exactly when at least one file was
reviewed and neither condition holds; "neutral" exactly when zero
files were reviewable. -/
theorem C1_review_conclusion (fetch : ChangedFile → Option String)
    (llm : ChangedFile → String → Option ReviewResult) (threshold : Int)
    (maxFiles : Nat) (files : List ChangedFile) :
    (reviewConclusion (reviewFiles fetch llm threshold maxFiles files) = "failure"
       ↔ 0 < (reviewFiles fetch llm threshold maxFiles files).highSeverityIssues
         ∨ 0 < (reviewFiles fetch llm threshold maxFiles files).lowQualityFiles)
    ∧ (reviewConclusion (reviewFiles fetch llm threshold maxFiles files) = "success"
       ↔ 0 < (reviewFiles fetch llm threshold maxFiles files).reviewedFiles
         ∧ (reviewFiles fetch llm threshold maxFiles files).highSeverityIssues = 0
         ∧ (reviewFiles fetch llm threshold maxFiles files).lowQualityFiles = 0)
    ∧ (reviewConclusion (reviewFiles fetch llm threshold maxFiles files) = "neutral"
       ↔ (reviewFiles fetch llm threshold maxFiles files).reviewedFiles = 0) := by
  have hinv := reviewFiles_inv fetch llm threshold maxFiles files
  set agg := reviewFiles fetch llm threshold maxFiles files with hagg
  have hnf : ("neutral" : String) ≠ "failure" := by decide
  have hns : ("neutral" : String) ≠ "success" := by decide
  have hfs : ("failure" : String) ≠ "success" := by decide
  unfold reviewConclusion
  by_cases h0 : agg.reviewedFiles = 0
  · obtain ⟨h1, h2⟩ := hinv h0
    rw [if_pos h0]
    refine ⟨?_, ?_, ?_⟩
    · constructor
      · intro h
        exact absurd h hnf
      · intro h
        exfalso
        omega
    · constructor
      · intro h
        exact absurd h hns
      · intro h
        exfalso
        omega
    · exact ⟨fun _ => h0, fun _ => rfl⟩
  · rw [if_neg h0]
    by_cases hf : 0 < agg.highSeverityIssues ∨ 0 < agg.lowQualityFiles
    · rw [if_pos hf]
      refine ⟨⟨fun _ => hf, fun _ => rfl⟩, ?_, ?_⟩
      · constructor
        · intro h
          exact absurd h hfs
        · intro h
          exfalso
          omega
      · constructor
        · intro h
          exact absurd h.symm hnf
        · intro h
          exact absurd h h0
    · rw [if_neg hf]
      refine ⟨?_, ?_, ?_⟩
      · constructor
        · intro h
          exact absurd h.symm hfs
        · intro h
          exact absurd h hf
      · exact ⟨fun _ => by omega, fun _ => rfl⟩
      · constructor
        · intro h
          exact absurd h.symm hns
        · intro h
          exact absurd h h0

/-- C9: the reviewer considers exactly the first `maxFiles` entries of
the changed-file list: the considered slice has length at most
`maxFiles`, is an initial segment of the list, fully determines the
review counters, and for 15 changed files with `maxFiles = 10` it has
exactly 10 entries. -/
theorem C9_max_files_cap (files : List ChangedFile) (maxFiles : Nat) :
    (consideredFiles files maxFiles).length ≤ maxFiles
    ∧ consideredFiles files maxFiles <+: files
    ∧ (∀ (fetch : ChangedFile → Option String)
         (llm : ChangedFile → String → Option ReviewResult) (threshold : Int),
        reviewFiles fetch llm threshold maxFiles files
          = reviewFiles fetch llm threshold maxFiles (consideredFiles files maxFiles))
    ∧ (files.length = 15 → maxFiles = 10 → (consideredFiles files maxFiles).length = 10) := by
  refine ⟨?_, ?_, ?_, ?_⟩
  · exact List.length_take_le maxFiles files
  · exact List.take_prefix maxFiles files
  · intro fetch llm threshold
    unfold reviewFiles consideredFiles
    rw [List.take_take, Nat.min_self]
  · intro h15 h10
    subst h10
    simp [consideredFiles, List.length_take, h15]

/-- Witness for C9 at a concrete 15-entry changed-file list. -/
theorem C9_max_files_cap_witness : (consideredFiles files15 10).length = 10 :=
  (C9_max_files_cap files15 10).2.2.2 (by decide) rfl

/-- C10: the code reviewer's process exit code is non-zero exactly when
`highSeverityIssues > 0`; a run whose only defect is a low-quality file
gets conclusion "failure" yet exit code 0, so conclusion and exit code
disagree there. -/
theorem C10_exit_vs_conclusion :
    (∀ (fetch : ChangedFile → Option String)
       (llm : ChangedFile → String → Option ReviewResult) (threshold : Int)
       (maxFiles : Nat) (files : List ChangedFile),
        reviewExit (reviewFiles fetch llm threshold maxFiles files) ≠ 0
          ↔ 0 < (reviewFiles fetch llm threshold maxFiles files).highSeverityIssues)
    ∧ reviewConclusion (reviewFiles sampleFetch sampleLlm 6 10 [sampleFile]) = "failure"
    ∧ reviewExit (reviewFiles sampleFetch sampleLlm 6 10 [sampleFile]) = 0
    ∧ (reviewFiles sampleFetch sampleLlm 6 10 [sampleFile]).lowQualityFiles = 1
    ∧ (reviewFiles sampleFetch sampleLlm 6 10 [sampleFile]).highSeverityIssues = 0 := by
  refine ⟨?_, by decide, by decide, by decide, by decide⟩
  intro fetch llm threshold maxFiles files
  by_cases hh : 0 < (reviewFiles fetch llm threshold maxFiles files).highSeverityIssues <;>
    simp [reviewExit, hh]

end PrReview
